import Mathlib

/-!
Verification of the data-normalization core of the fear-and-greed bot
(`main.py`): the series extraction, the DataFrame normalization pipeline,
the current-value reader, the caption formatting, and the chart-file
lifecycle of the command and scheduled flows.
-/

namespace FearGreed

/-- JSON values as returned by `response.json()` in `main.py`.  Objects keep
their fields as an association list; numbers are modelled exactly as
rationals. -/
inductive JVal : Type where
  | null : JVal
  | bool (b : Bool) : JVal
  | num (q : ℚ) : JVal
  | str (s : String) : JVal
  | arr (elems : List JVal) : JVal
  | obj (fields : List (String × JVal)) : JVal

/-- First binding of a key in an object's field list (Python `dict` lookup;
duplicate keys cannot arise from parsed JSON). -/
def lookupField : List (String × JVal) → String → Option JVal
  | [], _ => none
  | (k, v) :: rest, key => if k = key then some v else lookupField rest key

/-- Model of `key in data` / `data[key]` on the parsed top-level document:
a document that is not an object never yields the key. -/
def docGet : JVal → String → Option JVal
  | JVal.obj fields, key => lookupField fields key
  | _, _ => none

/-- One element appended to `time_series_data`
(`{'timestamp': item['x'], 'value': item['y']}`, main.py lines 75-78 and
379-382).  Both fields are still raw JSON values. -/
structure RawPoint where
  timestamp : JVal
  value : JVal

/-- The per-item test of the extraction loop (main.py line 74 / 377): the
item must be a dict containing both an `x` and a `y` key; otherwise the
item is skipped with a warning. -/
def itemPoint : JVal → Option RawPoint
  | JVal.obj fields =>
    match lookupField fields "x", lookupField fields "y" with
    | some x, some y => some ⟨x, y⟩
    | _, _ => none
  | _ => none

/-- The `time_series_data` list built by the loop at main.py lines 72-80. -/
def extractItems (elems : List JVal) : List RawPoint :=
  elems.filterMap itemPoint

/-- The distinct early-return branches of the extraction stage of
`get_fear_greed_data` (main.py lines 40-87): each `return None` there logs
its own diagnostic, so the failure modes are observably distinct. -/
inductive ExtractErr : Type where
  | missingKey : ExtractErr
  | shapeErr : ExtractErr
  | notList : ExtractErr
  | empty : ExtractErr
  | noPoints : ExtractErr
deriving DecidableEq

/-- The extraction stage of `get_fear_greed_data` (main.py lines 40-87):
top-level key lookup, shape checks on the nested dict and its `data`
list, the non-empty check, the per-item loop, and the check that at least
one point was extracted. -/
def extract (doc : JVal) (key : String) : Except ExtractErr (List RawPoint) :=
  match docGet doc key with
  | none => Except.error ExtractErr.missingKey
  | some hist =>
    match hist with
    | JVal.obj fields =>
      match lookupField fields "data" with
      | none => Except.error ExtractErr.shapeErr
      | some d =>
        match d with
        | JVal.arr elems =>
          if elems.isEmpty then Except.error ExtractErr.empty
          else
            let tsd := extractItems elems
            if tsd.isEmpty then Except.error ExtractErr.noPoints
            else Except.ok tsd
        | _ => Except.error ExtractErr.notList
    | _ => Except.error ExtractErr.shapeErr

/-- Nanosecond-precision instant: pandas datetime64 values are integer
nanoseconds since the Unix epoch. -/
abbrev Instant : Type := ℤ

/-- Milliseconds-since-epoch (a JSON number, possibly fractional) to integer
nanoseconds, flooring any sub-nanosecond remainder; exact on the integer
millisecond values the API delivers. -/
def msToNs (q : ℚ) : Instant := (q.num * 1000000).fdiv q.den

/-- `pd.to_datetime(v, unit='ms')` on one cell: a number is milliseconds
since the epoch, `None` becomes `NaT` (the inner `none`), and any other
value raises — which the enclosing `except Exception` handler of
`get_fear_greed_data` turns into an overall `None` result (the outer
`none`). -/
def toCell : JVal → Option (Option Instant)
  | JVal.num q => some (some (msToNs q))
  | JVal.null => some none
  | _ => none

/-- A DataFrame row after the `to_datetime` conversion: a timestamp cell
(`none` modelling `NaT`) and a value cell of type `α`. -/
structure Row (α : Type) where
  timestamp : Option Instant
  value : α
deriving DecidableEq

/-- `df['timestamp'] = pd.to_datetime(df['timestamp'], unit='ms')` over the
whole column (main.py line 93); the call raises — and the whole function
returns `None` — if any cell does. -/
def convertStep (tsd : List RawPoint) : Option (List (Row JVal)) :=
  tsd.mapM fun p => (toCell p.timestamp).map fun c => { timestamp := c, value := p.value }

/-- Ascending order on timestamp cells used by `df.sort_values('timestamp')`,
with `NaT` placed last (pandas default `na_position='last'`). -/
def cellLe : Option Instant → Option Instant → Prop
  | some a, some b => a ≤ b
  | some _, none => True
  | none, some _ => False
  | none, none => True

instance : DecidableRel cellLe
  | some a, some b => inferInstanceAs (Decidable (a ≤ b))
  | some _, none => inferInstanceAs (Decidable True)
  | none, some _ => inferInstanceAs (Decidable False)
  | none, none => inferInstanceAs (Decidable True)

/-- Row comparison by the timestamp column only. -/
def rowLe {α : Type} (a b : Row α) : Prop := cellLe a.timestamp b.timestamp

instance {α : Type} : DecidableRel (@rowLe α) :=
  fun a b => inferInstanceAs (Decidable (cellLe a.timestamp b.timestamp))

theorem cellLe_total : ∀ a b : Option Instant, cellLe a b ∨ cellLe b a
  | some x, some y => le_total x y
  | some _, none => Or.inl trivial
  | none, some _ => Or.inr trivial
  | none, none => Or.inl trivial

theorem cellLe_trans : ∀ {a b c : Option Instant}, cellLe a b → cellLe b c → cellLe a c := by
  intro a b c hab hbc
  cases a <;> cases b <;> cases c <;> simp_all [cellLe]
  exact le_trans hab hbc

instance {α : Type} : IsTotal (Row α) rowLe := ⟨fun a b => cellLe_total a.timestamp b.timestamp⟩

instance {α : Type} : IsTrans (Row α) rowLe := ⟨fun _ _ _ hab hbc => cellLe_trans hab hbc⟩

/-- `df = df.sort_values('timestamp')` (main.py line 96): ascending sort by
the timestamp column.  The pandas default `kind='quicksort'` guarantees
only a sorted permutation — not the relative order of tied timestamps —
so the model fixes one deterministic comparison sort; no theorem below
depends on the order of ties (the sortedness and membership facts used
hold for every sorted permutation, and the concrete inputs evaluated have
pairwise-distinct timestamps). -/
def sortStep {α : Type} (l : List (Row α)) : List (Row α) :=
  List.insertionSort rowLe l

/-- Nanoseconds in one day. -/
def dayNs : Instant := 86400000000000

/-- `last_year = pd.Timestamp.now().normalize() - pd.Timedelta(days=365)`
(main.py line 100): `now` floored to the start of its day, minus 365 days. -/
def lastYear (now : Instant) : Instant := (now.fdiv dayNs) * dayNs - 365 * dayNs

/-- The row-retention test of `df = df[df['timestamp'] >= last_year]`
(main.py line 101); a `NaT` timestamp compares false and is dropped. -/
def keepRow (now : Instant) {α : Type} (r : Row α) : Bool :=
  match r.timestamp with
  | some t => decide (lastYear now ≤ t)
  | none => false

/-- The window-filter step of the pipeline (main.py line 101). -/
def windowStep (now : Instant) {α : Type} (l : List (Row α)) : List (Row α) :=
  l.filter (keepRow now)

/-- Value of an all-digit character list read as a decimal numeral. -/
def digitsVal (l : List Char) : ℕ :=
  l.foldl (fun a c => 10 * a + (c.toNat - 48)) 0

/-- Unsigned decimal literal: digits with an optional fractional part.
Model of the numeric strings `pd.to_numeric` accepts; the payload's numeric
strings are plain decimals. -/
def parseDecimal (l : List Char) : Option ℚ :=
  let intPart := l.takeWhile Char.isDigit
  let rest := l.dropWhile Char.isDigit
  if intPart.isEmpty then none
  else
    match rest with
    | [] => some (mkRat (digitsVal intPart) 1)
    | '.' :: frac =>
      if !frac.isEmpty && frac.all Char.isDigit then
        some (mkRat (digitsVal intPart * 10 ^ frac.length + digitsVal frac) (10 ^ frac.length))
      else none
    | _ => none

/-- Signed decimal literal accepted by the string-to-number coercion. -/
def parseNum (s : String) : Option ℚ :=
  match s.toList with
  | '-' :: rest => (parseDecimal rest).map fun q => mkRat (-q.num) q.den
  | '+' :: rest => parseDecimal rest
  | l => parseDecimal l

/-- `pd.to_numeric(value, errors='coerce')` on one cell: numbers pass
through, numeric strings parse, booleans coerce to 1/0, and anything else
becomes `NaN` (modelled as `none`). -/
def toNumeric : JVal → Option ℚ
  | JVal.num q => some q
  | JVal.str s => parseNum s
  | JVal.bool b => some (if b then 1 else 0)
  | _ => none

/-- Main.py lines 104-105: coerce the value column to numeric and drop the
rows whose value became `NaN` (`df.dropna(subset=['value'])`). -/
def coerceDropStep (l : List (Row JVal)) : List (Row ℚ) :=
  l.filterMap fun r => (toNumeric r.value).map fun q => { timestamp := r.timestamp, value := q }

/-- The DataFrame pipeline of main.py lines 96-105 applied after the
`to_datetime` conversion: sort, window-filter, coerce-and-drop, in the
code's order. -/
def postPipeline (now : Instant) (l : List (Row JVal)) : List (Row ℚ) :=
  coerceDropStep (windowStep now (sortStep l))

/-- The whole normalization of main.py lines 90-105: convert the timestamp
column, then run the pipeline; `none` when the conversion raises. -/
def normalize (tsd : List RawPoint) (now : Instant) : Option (List (Row ℚ)) :=
  (convertStep tsd).map (postPipeline now)

/-- The fixed historical key of `get_fear_greed_data` (main.py line 40). -/
def histKey : String := "fear_and_greed_historical"

/-- `get_fear_greed_data` (main.py lines 33-122) with the HTTP fetch already
performed: takes the parsed JSON document and the instant that
`pd.Timestamp.now()` returns, and yields the final DataFrame — or `None`
on any of the early-return branches, a conversion exception, or an empty
post-filter result (lines 107-109). -/
def get_fear_greed_data (doc : JVal) (now : Instant) : Option (List (Row ℚ)) :=
  match extract doc histKey with
  | Except.error _ => none
  | Except.ok tsd =>
    match normalize tsd now with
    | none => none
    | some df => if df.isEmpty then none else some df

/-- The `time_series_data` list built by the loop of `get_component_data`
(main.py lines 375-384) — a verbatim duplicate of the loop at lines 72-80. -/
def extractItemsC (elems : List JVal) : List RawPoint :=
  elems.filterMap itemPoint

/-- The extraction stage of `get_component_data` (main.py lines 348-387):
a verbatim duplicate of lines 40-87 with `component_key` in place of the
fixed historical key. -/
def extractC (doc : JVal) (key : String) : Except ExtractErr (List RawPoint) :=
  match docGet doc key with
  | none => Except.error ExtractErr.missingKey
  | some comp =>
    match comp with
    | JVal.obj fields =>
      match lookupField fields "data" with
      | none => Except.error ExtractErr.shapeErr
      | some d =>
        match d with
        | JVal.arr elems =>
          if elems.isEmpty then Except.error ExtractErr.empty
          else
            let tsd := extractItemsC elems
            if tsd.isEmpty then Except.error ExtractErr.noPoints
            else Except.ok tsd
        | _ => Except.error ExtractErr.notList
    | _ => Except.error ExtractErr.shapeErr

/-- The `to_datetime` conversion of `get_component_data` (main.py line 392),
duplicating line 93. -/
def convertStepC (tsd : List RawPoint) : Option (List (Row JVal)) :=
  tsd.mapM fun p => (toCell p.timestamp).map fun c => { timestamp := c, value := p.value }

/-- The DataFrame pipeline of `get_component_data` (main.py lines 393-400),
duplicating lines 96-105: sort, window-filter, coerce-and-drop. -/
def postPipelineC (now : Instant) (l : List (Row JVal)) : List (Row ℚ) :=
  (List.insertionSort rowLe l).filter (keepRow now) |>.filterMap
    fun r => (toNumeric r.value).map fun q => { timestamp := r.timestamp, value := q }

/-- `get_component_data` (main.py lines 341-417) with the HTTP fetch already
performed, parameterized by the component key (its one parameter). -/
def get_component_data (key : String) (doc : JVal) (now : Instant) : Option (List (Row ℚ)) :=
  match extractC doc key with
  | Except.error _ => none
  | Except.ok tsd =>
    match (convertStepC tsd).map (postPipelineC now) with
    | none => none
    | some df => if df.isEmpty then none else some df

/-- Python `dict.get(k)` followed by the `is None` test of main.py line 139:
the result is `None` both when the key is absent and when it maps to JSON
`null`. -/
def pyGet (fields : List (String × JVal)) (key : String) : Option JVal :=
  match lookupField fields key with
  | some JVal.null => none
  | o => o

/-- `get_current_fear_greed` (main.py lines 124-154) with the HTTP fetch
already performed: the raw `(score, rating)` pair, or `None, None` when the
top-level key is missing, the value is not a dict (an `AttributeError`
caught by the generic handler), or either field is missing or null. -/
def get_current_fear_greed (doc : JVal) : Option (JVal × JVal) :=
  match docGet doc "fear_and_greed" with
  | none => none
  | some cur =>
    match cur with
    | JVal.obj fields =>
      match pyGet fields "score", pyGet fields "rating" with
      | some s, some r => some (s, r)
      | _, _ => none
    | _ => none

/-- `str.replace('_', ' ')` for the one-character pattern used at
main.py line 245. -/
def replaceUnderscores (s : String) : String :=
  String.mk (s.toList.map fun c => if c = '_' then ' ' else c)

/-- Worker for Python `str.title()`: uppercase each alphabetic character that
follows a non-alphabetic one, lowercase the rest. -/
def titleAux : List Char → Bool → List Char
  | [], _ => []
  | c :: rest, prevAlpha =>
    (if c.isAlpha then (if prevAlpha then c.toLower else c.toUpper) else c) ::
      titleAux rest c.isAlpha

/-- Python `str.title()` (ASCII alphabet, which covers the rating labels). -/
def titleCase (s : String) : String := String.mk (titleAux s.toList false)

/-- The caption formatting `current_rating.replace('_', ' ').title()`
(main.py lines 245-246). -/
def formatRating (s : String) : String := titleCase (replaceUnderscores s)

/-- Chart filename of the manual `/feargreed` handler (main.py line 251). -/
def chartFile : String := "fear_greed_chart.png"

/-- Chart filename of the scheduled job (main.py line 482). -/
def schedChartFile : String := "scheduled_fear_greed_chart.png"

/-- Files left in the working directory after the manual `/feargreed` handler
(main.py lines 228-274) finishes, as a function of which stages succeed.
When current data, historical data and rendering all succeed, `savefig`
writes the chart file and — the `os.remove(chart_path)` at line 264 being
commented out — no path removes it: the delivery-success branch falls
through without a removal and the exception handler at lines 269-274 does
not remove it either. -/
def feargreedFilesLeft (currentOk histOk renderOk deliverOk : Bool) : List String :=
  if currentOk && histOk && renderOk then
    let written := [chartFile]
    match deliverOk with
    | true => written
    | false => written
  else []

/-- Files left after `scheduled_feargreed` (main.py lines 453-510).  When
the chart was written, the caption `send_message` at line 492 runs before
the `try/finally` of lines 493-500: if it raises (`captionOk = false`),
control jumps to the outer handler at line 505 and the chart file stays on
disk.  Once the caption is sent, the `finally` block removes the file
whether the `send_photo` at line 495 succeeds or raises. -/
def scheduledFeargreedFilesLeft
    (chatOk currentOk histOk renderOk captionOk photoOk : Bool) : List String :=
  if chatOk && currentOk && histOk && renderOk then
    if captionOk then
      let afterPhoto := match photoOk with
        | true => [schedChartFile]
        | false => [schedChartFile]
      afterPhoto.erase schedChartFile
    else [schedChartFile]
  else []

/-- A document whose historical object holds exactly the given data array:
`{"fear_and_greed_historical": {"data": elems}}`. -/
def mkHistDoc (elems : List JVal) : JVal :=
  JVal.obj [(histKey, JVal.obj [("data", JVal.arr elems)])]

theorem sortStep_pairwise {α : Type} (l : List (Row α)) :
    List.Pairwise rowLe (sortStep l) :=
  List.sorted_insertionSort rowLe l

theorem coerceDropStep_pairwise {l : List (Row JVal)} (h : List.Pairwise rowLe l) :
    List.Pairwise rowLe (coerceDropStep l) := by
  refine List.Pairwise.filterMap _ (fun a b hab p hp q hq => ?_) h
  cases ha : toNumeric a.value <;> rw [ha] at hp <;> simp at hp
  cases hb : toNumeric b.value <;> rw [hb] at hq <;> simp at hq
  rw [← hp, ← hq]
  exact hab

theorem postPipeline_pairwise (now : Instant) (l : List (Row JVal)) :
    List.Pairwise rowLe (postPipeline now l) :=
  coerceDropStep_pairwise (List.Pairwise.filter _ (sortStep_pairwise l))

theorem postPipeline_bound (now : Instant) (l : List (Row JVal)) {p : Row ℚ}
    (hp : p ∈ postPipeline now l) : ∃ t, p.timestamp = some t ∧ lastYear now ≤ t := by
  unfold postPipeline coerceDropStep at hp
  rw [List.mem_filterMap] at hp
  obtain ⟨r, hr, hfr⟩ := hp
  unfold windowStep at hr
  rw [List.mem_filter] at hr
  obtain ⟨-, hkeep⟩ := hr
  have hts : p.timestamp = r.timestamp := by
    cases htn : toNumeric r.value <;> rw [htn] at hfr <;> simp at hfr
    rw [← hfr]
  cases hrt : r.timestamp with
  | none => rw [keepRow, hrt] at hkeep; exact absurd hkeep (by simp)
  | some t =>
    refine ⟨t, hts.trans hrt, ?_⟩
    rw [keepRow, hrt] at hkeep
    exact of_decide_eq_true hkeep

theorem filterMap_length_of_isSome {α β : Type} (f : α → Option β) :
    ∀ l : List α, (∀ a ∈ l, (f a).isSome) → (l.filterMap f).length = l.length
  | [], _ => rfl
  | a :: rest, h => by
    have ha := h a (List.mem_cons_self a rest)
    cases hfa : f a with
    | none => rw [hfa] at ha; exact absurd ha (by simp)
    | some b =>
      rw [List.filterMap_cons, hfa]
      simp only [List.length_cons]
      rw [filterMap_length_of_isSome f rest fun x hx => h x (List.mem_cons_of_mem a hx)]

/-- C1 (amended): the output of `get_fear_greed_data` is sorted ascending by
timestamp, and every retained point's timestamp is at least the day-start
of `now` minus 365 days.  No upper bound is enforced: the code's filter at
main.py line 101 is one-sided, so (contrary to the claim's closed interval
`[now - 365 days, now]`) timestamps above `now` are retained — see the
counterexample. -/
theorem c1_sorted_and_windowed :
    ∀ (doc : JVal) (now : Instant) (pts : List (Row ℚ)),
      get_fear_greed_data doc now = some pts →
      List.Pairwise rowLe pts ∧ ∀ p ∈ pts, ∃ t, p.timestamp = some t ∧ lastYear now ≤ t := by
  intro doc now pts h
  cases he : extract doc histKey with
  | error e => simp [get_fear_greed_data, he] at h
  | ok tsd =>
    cases hc : convertStep tsd with
    | none => simp [get_fear_greed_data, he, normalize, hc] at h
    | some rows =>
      simp only [get_fear_greed_data, he, normalize, hc, Option.map_some'] at h
      have hpts : pts = postPipeline now rows := by
        by_cases hemp : (postPipeline now rows).isEmpty = true <;> simp [hemp] at h
        exact h.symm
      subst hpts
      exact ⟨postPipeline_pairwise now rows, fun p hp => postPipeline_bound now rows hp⟩

/-- Witness for C1 (amended) at a concrete document and instant. -/
theorem c1_witness :
    List.Pairwise rowLe [({ timestamp := some 1700086400000000000, value := 50 } : Row ℚ)] ∧
    ∀ p ∈ [({ timestamp := some 1700086400000000000, value := 50 } : Row ℚ)],
      ∃ t, p.timestamp = some t ∧ lastYear 1700000000000000000 ≤ t :=
  c1_sorted_and_windowed
    (mkHistDoc [JVal.obj [("x", JVal.num 1700086400000), ("y", JVal.num 50)]])
    1700000000000000000 _ (by decide)

/-- Counterexample to C1 as stated: with `now` at epoch-milliseconds
1700000000000 and a single point one day later, the point is retained
although its timestamp exceeds `now`, so the output does not lie within
`[now - 365 days, now]`. -/
theorem c1_counterexample :
    get_fear_greed_data
        (mkHistDoc [JVal.obj [("x", JVal.num 1700086400000), ("y", JVal.num 50)]])
        1700000000000000000 =
      some [{ timestamp := some 1700086400000000000, value := 50 }] ∧
    (1700000000000000000 : Instant) < 1700086400000000000 :=
  ⟨by decide, by decide⟩

/-- C3: a series that is empty after windowing and coercion is a valid
result of the normalization itself (`normalize` returns it wrapped in
`some`); it is the enclosing code's explicit `df.empty` check at main.py
lines 107-109 that turns emptiness into the `None` result. -/
theorem c3_empty_series_valid :
    ∀ (elems : List JVal) (tsd : List RawPoint) (rows : List (Row JVal)) (now : Instant),
      extract (mkHistDoc elems) histKey = Except.ok tsd →
      convertStep tsd = some rows →
      normalize tsd now = some (postPipeline now rows) ∧
      (postPipeline now rows = [] → get_fear_greed_data (mkHistDoc elems) now = none) ∧
      (postPipeline now rows ≠ [] →
        get_fear_greed_data (mkHistDoc elems) now = some (postPipeline now rows)) := by
  intro elems tsd rows now hex hconv
  refine ⟨by unfold normalize; rw [hconv, Option.map_some'], ?_, ?_⟩
  · intro hemp
    simp only [get_fear_greed_data, hex, normalize, hconv, Option.map_some']
    simp [List.isEmpty_iff, hemp]
  · intro hne
    simp only [get_fear_greed_data, hex, normalize, hconv, Option.map_some']
    simp [List.isEmpty_iff, hne]

/-- Witness for C3: a single point at epoch 0 with `now` in 2023; the
windowed series is empty, `normalize` returns `some []`, and
`get_fear_greed_data` maps it to `None` through its emptiness check. -/
theorem c3_witness :
    normalize [⟨JVal.num 0, JVal.num 50⟩] 1700000000000000000 =
      some (postPipeline 1700000000000000000 [{ timestamp := some 0, value := JVal.num 50 }]) ∧
    (postPipeline 1700000000000000000 [{ timestamp := some 0, value := JVal.num 50 }] = [] →
      get_fear_greed_data (mkHistDoc [JVal.obj [("x", JVal.num 0), ("y", JVal.num 50)]])
        1700000000000000000 = none) ∧
    (postPipeline 1700000000000000000 [{ timestamp := some 0, value := JVal.num 50 }] ≠ [] →
      get_fear_greed_data (mkHistDoc [JVal.obj [("x", JVal.num 0), ("y", JVal.num 50)]])
        1700000000000000000 =
        some (postPipeline 1700000000000000000 [{ timestamp := some 0, value := JVal.num 50 }])) :=
  c3_empty_series_valid [JVal.obj [("x", JVal.num 0), ("y", JVal.num 50)]]
    [⟨JVal.num 0, JVal.num 50⟩] [{ timestamp := some 0, value := JVal.num 50 }]
    1700000000000000000 rfl rfl

/-- C5: the extraction's failure modes are distinct typed outcomes — an
empty `data` array yields the empty-array error (main.py lines 64-66) and
a document without the `"fear_and_greed_historical"` key yields the
missing-key error (lines 40-42), and the two are different. -/
theorem c5_typed_errors :
    extract (mkHistDoc []) histKey = Except.error ExtractErr.empty ∧
    extract (JVal.obj []) histKey = Except.error ExtractErr.missingKey ∧
    ExtractErr.empty ≠ ExtractErr.missingKey :=
  ⟨rfl, rfl, by decide⟩

/-- C6 (amended): if exactly one element of the data array is malformed
(not a dict with both `x` and `y`) and at least one other element exists,
extraction succeeds, emits one `RawPoint` per well-formed element in
order, and omits exactly the malformed one.  (When the malformed element
is the only one, extraction does fail — see the counterexample.) -/
theorem c6_one_bad_element :
    ∀ (pre post : List JVal) (x : JVal),
      (∀ a ∈ pre, (itemPoint a).isSome) →
      (∀ a ∈ post, (itemPoint a).isSome) →
      itemPoint x = none →
      pre ++ post ≠ [] →
      extract (mkHistDoc (pre ++ x :: post)) histKey =
        Except.ok (pre.filterMap itemPoint ++ post.filterMap itemPoint) ∧
      (pre.filterMap itemPoint).length = pre.length ∧
      (post.filterMap itemPoint).length = post.length := by
  intro pre post x hpre hpost hx hne
  have hlpre := filterMap_length_of_isSome itemPoint pre hpre
  have hlpost := filterMap_length_of_isSome itemPoint post hpost
  refine ⟨?_, hlpre, hlpost⟩
  have hitems : extractItems (pre ++ x :: post) =
      pre.filterMap itemPoint ++ post.filterMap itemPoint := by
    rw [extractItems, List.filterMap_append, List.filterMap_cons, hx]
  have harr : (pre ++ x :: post).isEmpty = false := by
    cases pre <;> rfl
  have hcount : (pre.filterMap itemPoint ++ post.filterMap itemPoint).length ≠ 0 := by
    rw [List.length_append, hlpre, hlpost]
    intro hz
    rcases Nat.add_eq_zero.mp hz with ⟨hp0, hq0⟩
    exact hne (by rw [List.append_eq_nil]
                  exact ⟨List.length_eq_zero.mp hp0, List.length_eq_zero.mp hq0⟩)
  have hnonempty : (extractItems (pre ++ x :: post)).isEmpty = false := by
    rw [hitems]
    cases hcase : (List.filterMap itemPoint pre ++ List.filterMap itemPoint post).isEmpty
    · rfl
    · exact absurd (congrArg List.length (List.isEmpty_iff.mp hcase)) hcount
  simp [extract, mkHistDoc, docGet, lookupField, harr, hnonempty, hitems]
  intro hall
  cases hp : pre with
  | cons a as =>
    have h1 := hpre a (hp ▸ List.mem_cons_self a as)
    have h2 := hall a (hp ▸ List.mem_cons_self a as)
    rw [h2] at h1
    exact absurd h1 (by simp)
  | nil =>
    subst hp
    cases hq : post with
    | nil => subst hq; exact absurd rfl hne
    | cons b bs =>
      subst hq
      refine ⟨b, List.mem_cons_self b bs, ?_⟩
      have hbs := hpost b (List.mem_cons_self b bs)
      intro hb
      rw [hb] at hbs
      exact absurd hbs (by simp)

/-- Witness for C6 (amended): one well-formed point followed by a `null`
element; the well-formed point is emitted and the `null` skipped. -/
theorem c6_witness :
    extract (mkHistDoc ([JVal.obj [("x", JVal.num 1), ("y", JVal.num 2)]] ++ JVal.null :: []))
        histKey =
      Except.ok ([JVal.obj [("x", JVal.num 1), ("y", JVal.num 2)]].filterMap itemPoint ++
        ([] : List JVal).filterMap itemPoint) ∧
    ([JVal.obj [("x", JVal.num 1), ("y", JVal.num 2)]].filterMap itemPoint).length =
      [JVal.obj [("x", JVal.num 1), ("y", JVal.num 2)]].length ∧
    (([] : List JVal).filterMap itemPoint).length = ([] : List JVal).length :=
  c6_one_bad_element [JVal.obj [("x", JVal.num 1), ("y", JVal.num 2)]] [] JVal.null
    (by intro a ha
        rw [List.mem_singleton] at ha
        subst ha
        rfl)
    (by intro a ha
        exact absurd ha (List.not_mem_nil a))
    rfl
    (by simp)

/-- Counterexample to C6 as stated: when the single malformed element is
the whole array, the extraction as a whole does fail (main.py lines
85-87), returning the no-points error instead of succeeding. -/
theorem c6_counterexample :
    extract (mkHistDoc [JVal.null]) histKey = Except.error ExtractErr.noPoints := rfl

/-- C7: the coercion stage keeps exactly the rows whose value coerces to a
number, unchanged and in order, and drops the rest; and on the spec's
concrete scenario (values `"50"`, `60`, `null`, with `now` excluding
nothing) the normalizer returns exactly the two numeric points, in
ascending timestamp order. -/
theorem c7_coercion_drops_non_numeric :
    (∀ l : List (Row JVal),
      coerceDropStep l =
        (l.filter fun r => (toNumeric r.value).isSome).map
          fun r => { timestamp := r.timestamp, value := (toNumeric r.value).getD 0 }) ∧
    normalize [⟨JVal.num 1700000000000, JVal.str "50"⟩,
               ⟨JVal.num 1700050000000, JVal.num 60⟩,
               ⟨JVal.num 1700100000000, JVal.null⟩] 1700200000000000000 =
      some [{ timestamp := some 1700000000000000000, value := 50 },
            { timestamp := some 1700050000000000000, value := 60 }] := by
  refine ⟨?_, by decide⟩
  intro l
  induction l with
  | nil => rfl
  | cons r rest ih =>
    rw [coerceDropStep, List.filterMap_cons, List.filter_cons]
    cases htn : toNumeric r.value with
    | none => simpa [htn, coerceDropStep] using ih
    | some q => simpa [htn, coerceDropStep] using ih

/-- C8: on the document `{"fear_and_greed": {"score": 42.5, "rating":
"fear"}}` the current-value reader returns the pair (score `85/2 = 42.5`,
rating `"fear"`), and the caption formatting (underscores to spaces, then
title case) renders `"fear"` as `"Fear"`. -/
theorem c8_current_reading_and_caption :
    get_current_fear_greed (JVal.obj [("fear_and_greed", JVal.obj
        [("score", JVal.num (mkRat 85 2)), ("rating", JVal.str "fear")])]) =
      some (JVal.num (mkRat 85 2), JVal.str "fear") ∧
    formatRating "fear" = "Fear" :=
  ⟨rfl, rfl⟩

/-- C9 is violated: the manual `/feargreed` handler finishes with its chart
file still on disk on both delivery outcomes (the `os.remove` at main.py
line 264 is commented out); the scheduled job removes its file whenever
the caption send succeeds, whatever the photo delivery does, but also
leaves its file behind when the caption `send_message` at line 492 raises
before the `try/finally` of lines 493-500. -/
theorem c9_chart_file_left_behind :
    feargreedFilesLeft true true true true = [chartFile] ∧
    feargreedFilesLeft true true true false = [chartFile] ∧
    (∀ a b c d e, scheduledFeargreedFilesLeft a b c d true e = []) ∧
    scheduledFeargreedFilesLeft true true true true false false = [schedChartFile] := by
  refine ⟨rfl, rfl, ?_, rfl⟩
  intro a b c d e
  cases a <;> cases b <;> cases c <;> cases d <;> cases e <;> rfl

/-- C10: `get_component_data` applied to the historical key performs
exactly the computation of `get_fear_greed_data` — the two translations
(each taken verbatim from its own Python function) are definitionally
equal on every document and instant. -/
theorem c10_component_duplicates_main :
    ∀ (doc : JVal) (now : Instant),
      get_component_data histKey doc now = get_fear_greed_data doc now :=
  fun _ _ => rfl

end FearGreed
